import Mathlib

/-!
Shallow embedding of the embedded gas/temperature monitor in
`src/Task 4/main.cpp` (mbed single-loop program).

Floating-point `float` values are modelled as exact rationals `ℚ`: every
constant in the program (0.5, 24.0, 330.0, 9/5, 32, 10) is exactly
representable in binary floating point and the claims are about exact
linear formulas and strict comparisons, where the rational model and the
float code agree on the stated inputs.

Serial output is modelled as a list of structured `Event`s, one per
`pcSerialComStringWrite` of a semantically distinct line; the printf-style
formatting of the numeric payloads is not modelled, the payloads are.

The `uint32_t` millisecond tick arithmetic of `checkSensors` is modelled
with `sub32`, exact unsigned 32-bit subtraction on naturals below `2^32`.
-/

/-- Source function `analogReadingScaledWithTheLM35Formula` (main.cpp:259-261):
`return analogReading * 330.0f`. The spec calls this
`temperatureFromGasSensorFormula`. -/
def analogReadingScaledWithTheLM35Formula (analogReading : ℚ) : ℚ :=
  analogReading * 330

/-- Source function `celsiusToFahrenheit` (main.cpp:264-266): `c * 9.0f / 5.0f + 32.0f`. -/
def celsiusToFahrenheit (tempInCelsiusDegrees : ℚ) : ℚ :=
  tempInCelsiusDegrees * 9 / 5 + 32

/-- Source function `potentiometerScaledToCelsius` (main.cpp:269-271): `analogValue * 330.0f`. -/
def potentiometerScaledToCelsius (analogValue : ℚ) : ℚ :=
  analogValue * 330

/-- Source function `potentiometerScaledToFahrenheit` (main.cpp:274-276):
`potentiometerScaledToCelsius(analogValue) * 9.0f / 5.0f + 32.0f`. -/
def potentiometerScaledToFahrenheit (analogValue : ℚ) : ℚ :=
  potentiometerScaledToCelsius analogValue * 9 / 5 + 32

/-- Source function `readStableAnalog` (main.cpp:248-256): accumulates 10 consecutive
single-shot reads (`reads 0`, `reads 1`, ...) with a 10ms delay between
them (the delay has no effect on the returned value) and divides by 10.
The analog capability is modelled as the stream `reads` of successive
values returned by `sensor.read()`. -/
def readStableAnalog (reads : ℕ → ℚ) : ℚ :=
  (List.range 10).foldl (fun reading i => reading + reads i) 0 / 10

/-- One semantically distinct serial output line. -/
inductive Event where
  /-- Line `"Gas detected!\r\n"` (main.cpp:101) -/
  | gasDetectedMsg
  /-- Line `"Gas no longer detected.\r\n"` (main.cpp:107) -/
  | gasNoLongerMsg
  /-- Line `"ALERT: LM35 temperature exceeds 24°C!\r\n"` (main.cpp:116) -/
  | tempExceededMsg
  /-- Line `"LM35 temperature below 24°C.\r\n"` (main.cpp:122) -/
  | tempBelowMsg
  /-- Line `"Gas: %.2f, LM35: %.2f C, Potentiometer: %.2f\r\n"` (main.cpp:130) -/
  | statusReport (gas tempC pot : ℚ)
  /-- Line `"Gas Alarm\r\n"` (main.cpp:142) -/
  | gasAlarm
  /-- Line `"Temperature Alarm\r\n"` (main.cpp:145) -/
  | tempAlarm
  /-- Line `"Potentiometer reading: %.2f\r\n"` (main.cpp:165) -/
  | potLine (v : ℚ)
  /-- Line `"LM35 reading: %.2f\r\n"` (main.cpp:176) -/
  | lm35Line (v : ℚ)
  /-- Line `"LM35: %.2f °C\r\n"` (main.cpp:188) -/
  | celsiusLine (v : ℚ)
  /-- Line `"LM35: %.2f °F\r\n"` (main.cpp:201) -/
  | fahrenheitLine (v : ℚ)
  /-- Line `"LM35: %.2f °C, Potentiometer scaled to °C: %.2f\r\n"` (main.cpp:215) -/
  | bothCelsiusLine (lm pot : ℚ)
  /-- Line `"LM35: %.2f °F, Potentiometer scaled to °F: %.2f\r\n"` (main.cpp:233) -/
  | bothFahrenheitLine (lm pot : ℚ)
deriving DecidableEq, Repr

/-- The mutable program state: the module-level globals (main.cpp:22-29),
the `static` locals of `checkSensors` (main.cpp:85-87), and the two
outputs (buzzer duty cycle and LED level). -/
structure ProgState where
  lm35Reading : ℚ
  lm35TempC : ℚ
  lm35TempF : ℚ
  potentiometerReading : ℚ
  potentiometerScaledToCVal : ℚ
  potentiometerScaledToFVal : ℚ
  gasDetected : Bool
  tempExceeded : Bool
  lastGasDetected : Bool
  lastTempExceeded : Bool
  lastPrintTime : ℕ
  led : Bool
  buzzerDuty : ℚ
deriving DecidableEq, Repr

/-- State at entry of the first loop iteration: globals zero-initialised
(main.cpp:22-29), statics zero-initialised (main.cpp:85-87), buzzer
written 0.0 in `main` (main.cpp:45), LED low. -/
def initialProgState : ProgState :=
  { lm35Reading := 0, lm35TempC := 0, lm35TempF := 0
    potentiometerReading := 0, potentiometerScaledToCVal := 0
    potentiometerScaledToFVal := 0
    gasDetected := false, tempExceeded := false
    lastGasDetected := false, lastTempExceeded := false
    lastPrintTime := 0, led := false, buzzerDuty := 0 }

/-- The three averaged samples taken at the top of `checkSensors`
(main.cpp:91-95): results of the three `readStableAnalog` calls. -/
structure Sample where
  gas : ℚ
  lm35 : ℚ
  pot : ℚ
deriving DecidableEq, Repr

/-- Unsigned 32-bit subtraction `a - b` on naturals below `2^32`,
as performed on `uint32_t` in `currentTime - lastPrintTime`
(main.cpp:129). -/
def sub32 (a b : ℕ) : ℕ :=
  (a + 4294967296 - b) % 4294967296

/-- The gas branch of `checkSensors` (main.cpp:98-110). Returns
`(gasDetected, lastGasDetected, emitted events)`: the flag is set from the
threshold unconditionally, the edge memory is rewritten only inside the
state-change branches, exactly as in the source. -/
def gasBranch (lastGas : Bool) (gasReading : ℚ) : Bool × Bool × List Event :=
  if gasReading > 0.5 then
    if !lastGas then (true, true, [Event.gasDetectedMsg])
    else (true, lastGas, [])
  else
    if lastGas then (false, false, [Event.gasNoLongerMsg])
    else (false, lastGas, [])

/-- The temperature branch of `checkSensors` (main.cpp:113-125). Returns
`(tempExceeded, lastTempExceeded, emitted events)`. -/
def tempBranch (lastTemp : Bool) (lm35TempC : ℚ) : Bool × Bool × List Event :=
  if lm35TempC > 24 then
    if !lastTemp then (true, true, [Event.tempExceededMsg])
    else (true, lastTemp, [])
  else
    if lastTemp then (false, false, [Event.tempBelowMsg])
    else (false, lastTemp, [])

/-- Source function `checkSensors` (main.cpp:84-151), one invocation. `samp` holds the
three `readStableAnalog` results of this invocation and `tick` the value
`us_ticker_read() / 1000` (a `uint32_t` millisecond count) observed at
main.cpp:128. Returns the updated state and the serial lines emitted, in
program order: edge notifications, then the gated status report, then the
per-iteration alarm-source lines. -/
def checkSensors (s : ProgState) (samp : Sample) (tick : ℕ) :
    ProgState × List Event :=
  let gasReading := samp.gas
  let lm35Reading := samp.lm35
  let lm35TempC := analogReadingScaledWithTheLM35Formula lm35Reading
  let lm35TempF := celsiusToFahrenheit lm35TempC
  let potentiometerReading := samp.pot
  let gb := gasBranch s.lastGasDetected gasReading
  let tb := tempBranch s.lastTempExceeded lm35TempC
  let reportEvents :=
    if 1000 ≤ sub32 tick s.lastPrintTime then
      [Event.statusReport gasReading lm35TempC potentiometerReading]
    else []
  let lastPrintTime :=
    if 1000 ≤ sub32 tick s.lastPrintTime then tick else s.lastPrintTime
  let gasDetected := gb.1
  let tempExceeded := tb.1
  let buzzerDuty := if gasDetected || tempExceeded then (0.5 : ℚ) else 0
  let led := if gasDetected || tempExceeded then !s.led else false
  let alarmEvents :=
    if gasDetected || tempExceeded then
      (if gasDetected then [Event.gasAlarm] else []) ++
      (if tempExceeded then [Event.tempAlarm] else [])
    else []
  ({ s with
      lm35Reading := lm35Reading, lm35TempC := lm35TempC
      lm35TempF := lm35TempF, potentiometerReading := potentiometerReading
      lastGasDetected := gb.2.1, lastTempExceeded := tb.2.1
      lastPrintTime := lastPrintTime
      gasDetected := gasDetected, tempExceeded := tempExceeded
      led := led, buzzerDuty := buzzerDuty },
   gb.2.2 ++ tb.2.2 ++ reportEvents ++ alarmEvents)

/-- Iterate `checkSensors` over a list of `(sample, tick)` inputs,
collecting the events emitted by each invocation separately. -/
def runCheckSensors (s : ProgState) :
    List (Sample × ℕ) → ProgState × List (List Event)
  | [] => (s, [])
  | (samp, t) :: rest =>
    let r := checkSensors s samp t
    let r2 := runCheckSensors r.1 rest
    (r2.1, r.2 :: r2.2)

/-- The six streaming commands of `uartTask` (main.cpp:161-239). -/
inductive StreamCmd where
  | potCmd
  | lm35Cmd
  | celsiusCmd
  | fahrenheitCmd
  | bothCelsiusCmd
  | bothFahrenheitCmd
deriving DecidableEq, Repr

/-- The `switch (receivedChar)` dispatch of `uartTask` (main.cpp:160-242):
the recognised command letters, upper or lower case; every other byte
(including the `'\0'` returned by `pcSerialComCharRead` when no data is
available) falls to `default` and is a no-op. -/
def charToCmd : Char → Option StreamCmd
  | 'a' | 'A' => some .potCmd
  | 'b' | 'B' => some .lm35Cmd
  | 'c' | 'C' => some .celsiusCmd
  | 'd' | 'D' => some .fahrenheitCmd
  | 'e' | 'E' => some .bothCelsiusCmd
  | 'f' | 'F' => some .bothFahrenheitCmd
  | _ => none

/-- Environment of `uartTask`: `chars n` is the result of the
`(n+1)`-th call of `pcSerialComCharRead` (main.cpp:62-68; yields `'\0'`
when no byte is available), and `potRaw i` / `lm35Raw i` are the raw
single-shot `potentiometer.read()` / `lm35.read()` values of the `i`-th
streaming iteration. -/
structure UartEnv where
  chars : ℕ → Char
  potRaw : ℕ → ℚ
  lm35Raw : ℕ → ℚ

/-- One body of the active streaming sub-loop of `uartTask`: the raw
single-shot read(s), global updates, and the one emitted line of the
selected command (main.cpp:163-239, per-case bodies). -/
def streamBody (cmd : StreamCmd) (env : UartEnv) (i : ℕ) (g : ProgState) :
    ProgState × Event :=
  match cmd with
  | .potCmd =>
    let v := env.potRaw i
    ({ g with potentiometerReading := v }, Event.potLine v)
  | .lm35Cmd =>
    let v := env.lm35Raw i
    ({ g with lm35Reading := v }, Event.lm35Line v)
  | .celsiusCmd =>
    let v := env.lm35Raw i
    let c := analogReadingScaledWithTheLM35Formula v
    ({ g with lm35Reading := v, lm35TempC := c }, Event.celsiusLine c)
  | .fahrenheitCmd =>
    let v := env.lm35Raw i
    let c := analogReadingScaledWithTheLM35Formula v
    let f := celsiusToFahrenheit c
    ({ g with lm35Reading := v, lm35TempC := c, lm35TempF := f },
      Event.fahrenheitLine f)
  | .bothCelsiusCmd =>
    let p := env.potRaw i
    let pc := potentiometerScaledToCelsius p
    let v := env.lm35Raw i
    let c := analogReadingScaledWithTheLM35Formula v
    ({ g with
        potentiometerReading := p
        potentiometerScaledToCVal := pc
        lm35Reading := v
        lm35TempC := c },
      Event.bothCelsiusLine c pc)
  | .bothFahrenheitCmd =>
    let p := env.potRaw i
    let pf := potentiometerScaledToFahrenheit p
    let v := env.lm35Raw i
    let c := analogReadingScaledWithTheLM35Formula v
    let f := celsiusToFahrenheit c
    ({ g with
        potentiometerReading := p
        potentiometerScaledToFVal := pf
        lm35Reading := v
        lm35TempC := c
        lm35TempF := f },
      Event.bothFahrenheitLine f pf)

/-- The blocking `while (!(receivedChar == 'q' || receivedChar == 'Q'))`
sub-loop of a streaming command (main.cpp:163-169 and the analogous cases).
`c` is the most recently polled byte, `n` the cursor into `env.chars` for
the next poll, `i` the index of the next raw read. `fuel` bounds the number
of iterations modelled; `none` means the loop is still running after
`fuel` iterations (the source loop blocks until a quit byte arrives). -/
def streamLoop (cmd : StreamCmd) (env : UartEnv) :
    ℕ → ℕ → ℕ → Char → ProgState → Option (ProgState × List Event)
  | fuel, n, i, c, g =>
    if c = 'q' ∨ c = 'Q' then some (g, [])
    else
      match fuel with
      | 0 => none
      | fuel' + 1 =>
        let r := streamBody cmd env i g
        match streamLoop cmd env fuel' (n + 1) (i + 1) (env.chars n) r.1 with
        | none => none
        | some r2 => some (r2.1, r.2 :: r2.2)

/-- Source function `uartTask` (main.cpp:154-245), one invocation: polls one byte; `'\0'`
and unrecognised bytes are no-ops; a command letter enters the dedicated
streaming sub-loop until `'q'`/`'Q'`. -/
def uartTask (env : UartEnv) (fuel : ℕ) (g : ProgState) :
    Option (ProgState × List Event) :=
  let receivedChar := env.chars 0
  if receivedChar = '\x00' then some (g, [])
  else
    match charToCmd receivedChar with
    | some cmd => streamLoop cmd env fuel 1 0 receivedChar g
    | none => some (g, [])

/-- Which streaming command a console output line belongs to. -/
def eventCmd : Event → Option StreamCmd
  | .potLine _ => some .potCmd
  | .lm35Line _ => some .lm35Cmd
  | .celsiusLine _ => some .celsiusCmd
  | .fahrenheitLine _ => some .fahrenheitCmd
  | .bothCelsiusLine _ _ => some .bothCelsiusCmd
  | .bothFahrenheitLine _ _ => some .bothFahrenheitCmd
  | _ => none

/-- Lemma: `streamBody` never touches the alarm flags. -/
theorem streamBody_preserves_flags (cmd : StreamCmd) (env : UartEnv)
    (i : ℕ) (g : ProgState) :
    (streamBody cmd env i g).1.gasDetected = g.gasDetected ∧
    (streamBody cmd env i g).1.tempExceeded = g.tempExceeded := by
  cases cmd <;> simp [streamBody]

/-- The streaming sub-loop never touches the alarm flags. -/
theorem streamLoop_preserves_flags (cmd : StreamCmd) (env : UartEnv) :
    ∀ (fuel n i : ℕ) (c : Char) (g : ProgState)
      (r : ProgState × List Event),
      streamLoop cmd env fuel n i c g = some r →
      r.1.gasDetected = g.gasDetected ∧
      r.1.tempExceeded = g.tempExceeded := by
  intro fuel
  induction fuel with
  | zero =>
    intro n i c g r h
    rw [streamLoop] at h
    by_cases hq : c = 'q' ∨ c = 'Q'
    · simp [hq] at h
      simp [← h]
    · simp [hq] at h
  | succ fuel ih =>
    intro n i c g r h
    rw [streamLoop] at h
    by_cases hq : c = 'q' ∨ c = 'Q'
    · simp [hq] at h
      simp [← h]
    · simp only [hq, if_false] at h
      rcases h2 : streamLoop cmd env fuel (n + 1) (i + 1) (env.chars n)
          (streamBody cmd env i g).1 with _ | r2
      · simp [h2] at h
      · simp [h2] at h
        have hb := streamBody_preserves_flags cmd env i g
        have hr := ih (n + 1) (i + 1) (env.chars n)
          (streamBody cmd env i g).1 r2 h2
        subst h
        exact ⟨hr.1.trans hb.1, hr.2.trans hb.2⟩

/-- C4: the unit converters are the stated exact linear formulas:
the gas-sensor temperature formula (`analogReadingScaledWithTheLM35Formula`,
which the spec names `temperatureFromGasSensorFormula`) is `v * 330`,
`celsiusToFahrenheit` maps 0 to 32 and 100 to 212, and the potentiometer
Fahrenheit path is the composition of the same 330 coefficient with the
Celsius-to-Fahrenheit conversion. -/
theorem unit_converters_spec :
    (∀ v : ℚ, analogReadingScaledWithTheLM35Formula v = v * 330) ∧
    celsiusToFahrenheit 0 = 32 ∧
    celsiusToFahrenheit 100 = 212 ∧
    (∀ v : ℚ, potentiometerScaledToFahrenheit v =
      celsiusToFahrenheit (analogReadingScaledWithTheLM35Formula v)) := by
  refine ⟨fun v => rfl, by norm_num [celsiusToFahrenheit],
    by norm_num [celsiusToFahrenheit], fun v => ?_⟩
  simp [potentiometerScaledToFahrenheit, potentiometerScaledToCelsius,
    celsiusToFahrenheit, analogReadingScaledWithTheLM35Formula]

/-- C7: `readStableAnalog` returns the arithmetic mean of exactly 10
consecutive reads of its input, and on the canned consecutive readings
0.1, 0.2, ..., 1.0 it returns 0.55. -/
theorem readStableAnalog_mean :
    (∀ reads : ℕ → ℚ,
      readStableAnalog reads = (∑ i ∈ Finset.range 10, reads i) / 10) ∧
    readStableAnalog (fun i => ((i : ℚ) + 1) / 10) = 0.55 := by
  constructor
  · intro reads
    simp [readStableAnalog, List.range_succ, Finset.sum_range_succ]
  · norm_num [readStableAnalog, List.range_succ]

/-- C3: after every invocation of `checkSensors`, the edge-memory pair
equals the alarm-state pair, for every state and every input. -/
theorem edge_memory_sync (s : ProgState) (samp : Sample) (tick : ℕ) :
    (checkSensors s samp tick).1.lastGasDetected =
      (checkSensors s samp tick).1.gasDetected ∧
    (checkSensors s samp tick).1.lastTempExceeded =
      (checkSensors s samp tick).1.tempExceeded := by
  simp only [checkSensors, gasBranch, tempBranch]
  split_ifs <;> simp_all

/-- C2: after every `checkSensors` invocation the alarm flags are a pure
function of that invocation's samples with strict thresholds
(`gasDetected = (gas > 0.5)`, `tempExceeded = (330 * lm35 > 24)`); a
derived temperature of exactly 24 °C (raw reading 24/330) leaves
`tempExceeded` false; and the only other state-mutating operation of the
program, `uartTask`, never changes either flag. -/
theorem alarm_flags_pure :
    (∀ (s : ProgState) (samp : Sample) (tick : ℕ),
      (checkSensors s samp tick).1.gasDetected = decide (samp.gas > 0.5) ∧
      (checkSensors s samp tick).1.tempExceeded =
        decide (analogReadingScaledWithTheLM35Formula samp.lm35 > 24)) ∧
    (∀ (s : ProgState) (tick : ℕ),
      (checkSensors s ⟨0, 24 / 330, 0⟩ tick).1.tempExceeded = false) ∧
    (∀ (env : UartEnv) (fuel : ℕ) (g : ProgState)
      (r : ProgState × List Event),
      uartTask env fuel g = some r →
      r.1.gasDetected = g.gasDetected ∧
      r.1.tempExceeded = g.tempExceeded) := by
  refine ⟨?_, ?_, ?_⟩
  · intro s samp tick
    simp only [checkSensors, gasBranch, tempBranch]
    split_ifs <;> simp_all
  · intro s tick
    simp only [checkSensors, gasBranch, tempBranch]
    norm_num [analogReadingScaledWithTheLM35Formula]
    split_ifs <;> simp_all
  · intro env fuel g r h
    rw [uartTask] at h
    by_cases h0 : env.chars 0 = '\x00'
    · simp [h0] at h
      simp [← h]
    · simp only [h0, if_false] at h
      rcases hc : charToCmd (env.chars 0) with _ | cmd
      · rw [hc] at h
        simp at h
        simp [← h]
      · rw [hc] at h
        exact streamLoop_preserves_flags cmd env fuel 1 0 (env.chars 0) g r h

/-- Witness for the hypothesis of the `uartTask` part of C2: on a session
where no byte is available (`'\0'`), `uartTask` is a no-op and the flags
are unchanged. -/
theorem alarm_flags_pure_witness :
    (initialProgState, ([] : List Event)).1.gasDetected =
      initialProgState.gasDetected ∧
    (initialProgState, ([] : List Event)).1.tempExceeded =
      initialProgState.tempExceeded :=
  alarm_flags_pure.2.2 ⟨fun _ => '\x00', fun _ => 0, fun _ => 0⟩ 0
    initialProgState (initialProgState, []) rfl

/-- C5: the actuator step of every `checkSensors` invocation: duty cycle
0.5 and LED inverted when a flag is active (0.0 and LED forced off when
not), with one "Gas Alarm" line exactly when `gasDetected` and one
"Temperature Alarm" line exactly when `tempExceeded`, every invocation,
independent of edge state. -/
theorem actuator_spec (s : ProgState) (samp : Sample) (tick : ℕ) :
    ((checkSensors s samp tick).1.buzzerDuty =
      if (checkSensors s samp tick).1.gasDetected ||
          (checkSensors s samp tick).1.tempExceeded then (0.5 : ℚ) else 0) ∧
    ((checkSensors s samp tick).1.led =
      if (checkSensors s samp tick).1.gasDetected ||
          (checkSensors s samp tick).1.tempExceeded then !s.led else false) ∧
    ((checkSensors s samp tick).2.count Event.gasAlarm =
      if (checkSensors s samp tick).1.gasDetected then 1 else 0) ∧
    ((checkSensors s samp tick).2.count Event.tempAlarm =
      if (checkSensors s samp tick).1.tempExceeded then 1 else 0) := by
  simp only [checkSensors, gasBranch, tempBranch]
  split_ifs <;> simp_all [List.count_append]

/-- Recognises the periodic status-report line. -/
def isStatusReport : Event → Bool
  | .statusReport _ _ _ => true
  | _ => false

/-- Coarse position of an event in the `checkSensors` body: edge
notifications (main.cpp:98-125) come before the gated status report
(main.cpp:127-134), which comes before the per-iteration alarm lines
(main.cpp:136-150); console lines do not occur in `checkSensors`. -/
def phase : Event → ℕ
  | .gasDetectedMsg => 0
  | .gasNoLongerMsg => 0
  | .tempExceededMsg => 0
  | .tempBelowMsg => 0
  | .statusReport _ _ _ => 1
  | .gasAlarm => 2
  | .tempAlarm => 2
  | _ => 3

/-- The streaming sub-loop returns immediately when the polled byte is a
quit byte. -/
theorem streamLoop_quit (cmd : StreamCmd) (env : UartEnv)
    (fuel n i : ℕ) (c : Char) (g : ProgState) (h : c = 'q' ∨ c = 'Q') :
    streamLoop cmd env fuel n i c g = some (g, []) := by
  rw [streamLoop.eq_def]
  simp [h]

/-- On a non-quit byte the streaming sub-loop runs one body (one raw
single-shot sample, one emitted line) and continues with the next polled
byte. -/
theorem streamLoop_step (cmd : StreamCmd) (env : UartEnv)
    (fuel n i : ℕ) (c : Char) (g : ProgState) (h : ¬(c = 'q' ∨ c = 'Q')) :
    streamLoop cmd env (fuel + 1) n i c g =
      match streamLoop cmd env fuel (n + 1) (i + 1) (env.chars n)
          (streamBody cmd env i g).1 with
      | none => none
      | some r2 => some (r2.1, (streamBody cmd env i g).2 :: r2.2) := by
  rw [streamLoop.eq_def]
  simp [h]

/-- Every line emitted by a streaming body belongs to the selected
command. -/
theorem streamBody_eventCmd (cmd : StreamCmd) (env : UartEnv) (i : ℕ)
    (g : ProgState) : eventCmd (streamBody cmd env i g).2 = some cmd := by
  cases cmd <;> rfl

/-- C1: on the gas sequence [0.3, 0.6, 0.6, 0.4] from the initial state,
"Gas detected!" is emitted exactly once, on the evaluation of index 1, and
"Gas no longer detected." exactly once, on index 3; and in general each of
the two notifications is emitted by an evaluation exactly when the
detected/not-detected state changes accordingly. -/
theorem checkSensors_edge_messages :
    ((runCheckSensors initialProgState
        ([0.3, 0.6, 0.6, 0.4].map (fun gv => (⟨gv, 0, 0⟩, 0)))).2.map
      (fun evs => evs.count Event.gasDetectedMsg) = [0, 1, 0, 0]) ∧
    ((runCheckSensors initialProgState
        ([0.3, 0.6, 0.6, 0.4].map (fun gv => (⟨gv, 0, 0⟩, 0)))).2.map
      (fun evs => evs.count Event.gasNoLongerMsg) = [0, 0, 0, 1]) ∧
    (∀ (s : ProgState) (samp : Sample) (tick : ℕ),
      (Event.gasDetectedMsg ∈ (checkSensors s samp tick).2 ↔
        (samp.gas > 0.5 ∧ s.lastGasDetected = false)) ∧
      (Event.gasNoLongerMsg ∈ (checkSensors s samp tick).2 ↔
        (¬samp.gas > 0.5 ∧ s.lastGasDetected = true))) := by
  refine ⟨?_, ?_, ?_⟩
  · norm_num [runCheckSensors, checkSensors, gasBranch, tempBranch, sub32,
      analogReadingScaledWithTheLM35Formula, initialProgState, List.count]
    decide
  · norm_num [runCheckSensors, checkSensors, gasBranch, tempBranch, sub32,
      analogReadingScaledWithTheLM35Formula, initialProgState, List.count]
    decide
  · intro s samp tick
    simp only [checkSensors, gasBranch, tempBranch]
    split_ifs <;> simp_all

/-- C6: the status line is emitted by a `checkSensors` invocation exactly
when the 32-bit difference between the current millisecond tick and the
recorded tick is at least 1000, in which case the recorded tick is set to
the current tick; for ticks 0, 400, 900, 1050 from the initial state the
line is emitted only on the invocation at tick 1050. -/
theorem periodic_reporter_spec :
    (∀ (s : ProgState) (samp : Sample) (tick : ℕ),
      ((∃ gv cv pv,
          Event.statusReport gv cv pv ∈ (checkSensors s samp tick).2) ↔
        1000 ≤ sub32 tick s.lastPrintTime) ∧
      (checkSensors s samp tick).1.lastPrintTime =
        (if 1000 ≤ sub32 tick s.lastPrintTime then tick
          else s.lastPrintTime)) ∧
    ((runCheckSensors initialProgState
        ([0, 400, 900, 1050].map (fun t => ((⟨0, 0, 0⟩ : Sample), t)))).2.map
      (fun evs => evs.countP isStatusReport) = [0, 0, 0, 1]) := by
  constructor
  · intro s samp tick
    simp only [checkSensors, gasBranch, tempBranch]
    split_ifs <;> simp_all
  · norm_num [runCheckSensors, checkSensors, gasBranch, tempBranch, sub32,
      analogReadingScaledWithTheLM35Formula, initialProgState]
    decide

set_option maxHeartbeats 1600000 in
/-- C9: within one `checkSensors` invocation the trace is ordered
edge-notifications, then status report, then alarm lines (sampling itself
precedes all of them: every emitted value and both flags are functions of
this invocation's samples); the status line, when emitted, carries exactly
the gas, derived-temperature and potentiometer values sampled in this
invocation, the same values whose thresholds set this invocation's alarm
flags. -/
theorem iteration_ordering (s : ProgState) (samp : Sample) (tick : ℕ) :
    ((checkSensors s samp tick).2.Pairwise fun a b => phase a ≤ phase b) ∧
    ((checkSensors s samp tick).2.filter isStatusReport =
      if 1000 ≤ sub32 tick s.lastPrintTime then
        [Event.statusReport samp.gas
          (analogReadingScaledWithTheLM35Formula samp.lm35) samp.pot]
      else []) ∧
    ((checkSensors s samp tick).1.gasDetected = decide (samp.gas > 0.5) ∧
      (checkSensors s samp tick).1.tempExceeded =
        decide (analogReadingScaledWithTheLM35Formula samp.lm35 > 24)) := by
  refine ⟨?_, ?_, ?_⟩
  · simp only [checkSensors, gasBranch, tempBranch]
    split_ifs <;> simp_all [List.pairwise_append, phase]
  · simp only [checkSensors, gasBranch, tempBranch]
    split_ifs <;> simp_all [isStatusReport]
  · simp only [checkSensors, gasBranch, tempBranch]
    split_ifs <;> simp_all

/-- C8: feeding byte 'a' and then 'q' at the next poll makes `uartTask`
emit exactly one "Potentiometer reading" line (from one raw single-shot
sample) before returning control; in general the streaming sub-loop
returns immediately exactly when the polled byte is 'q' or 'Q', and on
any other byte runs one body (one raw sample, one emitted line) and polls
again. -/
theorem console_session_aq :
    (∀ (pot lm : ℕ → ℚ) (g : ProgState) (fuel : ℕ),
      uartTask ⟨fun n => if n = 0 then 'a' else 'q', pot, lm⟩ (fuel + 1) g =
        some ({ g with potentiometerReading := pot 0 },
          [Event.potLine (pot 0)])) ∧
    (∀ (cmd : StreamCmd) (env : UartEnv) (fuel n i : ℕ) (c : Char)
      (g : ProgState), (c = 'q' ∨ c = 'Q') →
      streamLoop cmd env fuel n i c g = some (g, [])) ∧
    (∀ (cmd : StreamCmd) (env : UartEnv) (fuel n i : ℕ) (c : Char)
      (g : ProgState), ¬(c = 'q' ∨ c = 'Q') →
      streamLoop cmd env (fuel + 1) n i c g =
        match streamLoop cmd env fuel (n + 1) (i + 1) (env.chars n)
            (streamBody cmd env i g).1 with
        | none => none
        | some r2 => some (r2.1, (streamBody cmd env i g).2 :: r2.2)) := by
  refine ⟨?_, streamLoop_quit, streamLoop_step⟩
  intro pot lm g fuel
  simp [uartTask, charToCmd]
  rw [streamLoop_step _ _ _ _ _ _ _ (by decide)]
  simp [streamLoop_quit, streamBody]

/-- Witness for C8 at concrete inputs: the 'a'-then-'q' session from the
initial state with constant 0.25 potentiometer readings emits exactly one
potentiometer line, and a polled 'q' returns at once. -/
theorem console_session_aq_witness :
    uartTask ⟨fun n => if n = 0 then 'a' else 'q', fun _ => 0.25, fun _ => 0⟩
        1 initialProgState =
      some ({ initialProgState with potentiometerReading := 0.25 },
        [Event.potLine 0.25]) ∧
    streamLoop StreamCmd.potCmd
        ⟨fun _ => 'q', fun _ => 0, fun _ => 0⟩ 5 1 0 'q' initialProgState =
      some (initialProgState, []) :=
  ⟨console_session_aq.1 (fun _ => 0.25) (fun _ => 0) initialProgState 0,
    console_session_aq.2.1 StreamCmd.potCmd
      ⟨fun _ => 'q', fun _ => 0, fun _ => 0⟩ 5 1 0 'q' initialProgState
      (Or.inl rfl)⟩

/-- C10: while a streaming sub-loop is active, every polled byte other
than 'q'/'Q' (other command letters and the '\0' no-data value included)
is consumed without any effect: the loop's result does not depend on
which non-quit byte was polled, every line it ever emits belongs to the
initially selected command, and when it terminates it does so on a polled
'q' or 'Q'. -/
theorem stream_loop_inert_bytes :
    (∀ (cmd : StreamCmd) (env : UartEnv) (fuel n i : ℕ) (c₁ c₂ : Char)
      (g : ProgState), ¬(c₁ = 'q' ∨ c₁ = 'Q') → ¬(c₂ = 'q' ∨ c₂ = 'Q') →
      streamLoop cmd env fuel n i c₁ g = streamLoop cmd env fuel n i c₂ g) ∧
    (∀ (cmd : StreamCmd) (env : UartEnv) (fuel n i : ℕ) (c : Char)
      (g g' : ProgState) (evs : List Event),
      streamLoop cmd env fuel n i c g = some (g', evs) →
      (∀ e ∈ evs, eventCmd e = some cmd) ∧
      ((c = 'q' ∨ c = 'Q') ∨
        ∃ j, env.chars (n + j) = 'q' ∨ env.chars (n + j) = 'Q')) := by
  constructor
  · intro cmd env fuel n i c₁ c₂ g h1 h2
    rw [streamLoop.eq_def, streamLoop.eq_def]
    simp [h1, h2]
  · intro cmd env fuel
    induction fuel with
    | zero =>
      intro n i c g g' evs h
      by_cases hq : c = 'q' ∨ c = 'Q'
      · rw [streamLoop_quit cmd env 0 n i c g hq] at h
        simp only [Option.some.injEq, Prod.mk.injEq] at h
        obtain ⟨hg, hevs⟩ := h
        subst hevs
        exact ⟨by simp, Or.inl hq⟩
      · rw [streamLoop.eq_def] at h
        simp [hq] at h
    | succ fuel ih =>
      intro n i c g g' evs h
      by_cases hq : c = 'q' ∨ c = 'Q'
      · rw [streamLoop_quit cmd env (fuel + 1) n i c g hq] at h
        simp only [Option.some.injEq, Prod.mk.injEq] at h
        obtain ⟨hg, hevs⟩ := h
        subst hevs
        exact ⟨by simp, Or.inl hq⟩
      · rw [streamLoop_step cmd env fuel n i c g hq] at h
        rcases h2 : streamLoop cmd env fuel (n + 1) (i + 1) (env.chars n)
            (streamBody cmd env i g).1 with _ | r2
        · rw [h2] at h
          simp at h
        · rw [h2] at h
          simp only [Option.some.injEq, Prod.mk.injEq] at h
          obtain ⟨hg, hevs⟩ := h
          have hih := ih (n + 1) (i + 1) (env.chars n)
            (streamBody cmd env i g).1 r2.1 r2.2 (by rw [h2])
          constructor
          · intro e he
            rw [← hevs] at he
            rcases List.mem_cons.mp he with he | he
            · rw [he]
              exact streamBody_eventCmd cmd env i g
            · exact hih.1 e he
          · rcases hih.2 with hq2 | ⟨j, hj⟩
            · exact Or.inr ⟨0, by simpa using hq2⟩
            · refine Or.inr ⟨j + 1, ?_⟩
              have hn : n + (j + 1) = n + 1 + j := by omega
              rw [hn]
              exact hj

/-- Witness for C10 at concrete inputs: polling 'b' or '\0' inside an
active potentiometer stream gives the same result, and a terminated loop
run satisfies the exit property. -/
theorem stream_loop_inert_bytes_witness :
    (streamLoop StreamCmd.potCmd
        ⟨fun _ => 'q', fun _ => 0.5, fun _ => 0⟩ 3 1 0 'b' initialProgState =
      streamLoop StreamCmd.potCmd
        ⟨fun _ => 'q', fun _ => 0.5, fun _ => 0⟩ 3 1 0 '\x00'
        initialProgState) ∧
    ((∀ e ∈ ([] : List Event), eventCmd e = some StreamCmd.potCmd) ∧
      (('q' = 'q' ∨ 'q' = 'Q') ∨
        ∃ j, (fun _ : ℕ => 'q') (1 + j) = 'q' ∨
          (fun _ : ℕ => 'q') (1 + j) = 'Q')) :=
  ⟨stream_loop_inert_bytes.1 StreamCmd.potCmd
      ⟨fun _ => 'q', fun _ => 0.5, fun _ => 0⟩ 3 1 0 'b' '\x00'
      initialProgState (by decide) (by decide),
    stream_loop_inert_bytes.2 StreamCmd.potCmd
      ⟨fun _ => 'q', fun _ => 0, fun _ => 0⟩ 4 1 0 'q' initialProgState
      initialProgState [] (streamLoop_quit _ _ _ _ _ _ _ (Or.inl rfl))⟩
